import Mathlib

/-!
Verification of the feature-engineering and training/serving contract of the
centrico-livelab-mlops repository, as a shallow embedding in Lean.

Real numbers of the Python/numpy code are modelled as exact rationals; the
concrete values the claims evaluate (tenths, small sums and one linear
interpolation whose interpolands are equal floats) are exact in binary64 as
well, so the rational model agrees with the floating-point run on them.
Machine-learning fitting (scikit-learn pipelines) and the pseudo-random
generator of numpy are opaque numeric collaborators: they are carried as
explicit function parameters, never stubbed inside a definition.
-/

/-! ## Label rules (services/trainer/app/train.py, main, lines 229-241)

The trainer's data-derived threshold is `fr.quantile(0.20)` on the
`free_ratio` column: pandas' default linear interpolation of the order
statistics, position `q * (n - 1)` into the ascending sort. -/

/-- Insert into a list so that elements the comparison puts earlier stay
earlier: the kernel-computable step of the ascending sort below. -/
def insertLe {α : Type} (le : α → α → Bool) (x : α) : List α → List α
  | [] => [x]
  | y :: rest => if le x y then x :: y :: rest else y :: insertLe le x rest

/-- Ascending sort by a boolean comparison. The sources sort with pandas
(sort order, not the algorithm, is what they rely on); insertion sort is used
here so that every concrete instance evaluates inside the kernel. -/
def sortLe {α : Type} (le : α → α → Bool) : List α → List α
  | [] => []
  | x :: rest => insertLe le x (sortLe le rest)

/-- Linear-interpolation quantile exactly as pandas Series.quantile computes it
with the default interpolation: sort ascending, take position h = q * (n - 1),
and interpolate between the neighbouring order statistics. An empty series
gives NaN in pandas; that case is unreachable here because the trainer guards
with a minimum of 20 rows, and this model returns 0 there. -/
def quantileLinear (xs : List ℚ) (q : ℚ) : ℚ :=
  let s := sortLe (fun a b => decide (a ≤ b)) xs
  let h : ℚ := q * ((s.length : ℚ) - 1)
  let i : ℕ := (Int.floor h).toNat
  let g : ℚ := h - (Int.floor h : ℚ)
  let x0 := s.getD i 0
  let x1 := s.getD (i + 1) x0
  x0 + g * (x1 - x0)

/-- The q20 rule's threshold: the 20th percentile of the frame's free_ratio
column, `float(fr.quantile(0.20))` in train.py line 237. -/
def q20Threshold (fr : List ℚ) : ℚ :=
  quantileLinear fr (1/5)

/-- The q20 rule's labels: `(fr < thr).astype(int)` in train.py line 238,
a strict comparison against the computed threshold. -/
def q20Labels (fr : List ℚ) : List ℕ :=
  fr.map (fun r => if r < q20Threshold fr then 1 else 0)

/-! ## As-of join (services/trainer/app/train.py, load_raw_from_db, lines 99-110)

Both streams are sorted ascending by ingestion time, then
`pd.merge_asof(..., direction="backward", tolerance=pd.Timedelta("30min"))`
matches each bike row to the most recent weather row at or before it, drops
the match when the gap exceeds the tolerance, and `.fillna(0.0)` turns the
unmatched weather columns into zeros. Time is modelled in minutes. -/

/-- The weather feature vector attached to each joined row. -/
structure WeatherFeat where
  temp_2m : ℚ
  precipitation : ℚ
  wind_speed_10m : ℚ
deriving DecidableEq

/-- The all-zero weather vector produced by `.fillna(0.0)` on an unmatched row. -/
def wzero : WeatherFeat := ⟨0, 0, 0⟩

/-- Sort a timestamped stream ascending by time, as `sort_values("ingested_at")`
does. -/
def sortByTime {α : Type} (l : List (ℕ × α)) : List (ℕ × α) :=
  sortLe (fun a b => decide (a.1 ≤ b.1)) l

/-- The backward as-of match: the last element of the (time-sorted) right
stream whose time is at or before t. On a sorted stream this is the most
recent such observation, with pandas' tie rule (last of equal keys). -/
def asofBackward {α : Type} (t : ℕ) : List (ℕ × α) → Option (ℕ × α)
  | [] => none
  | x :: rest =>
    match asofBackward t rest with
    | some r => some r
    | none => if x.1 ≤ t then some x else none

/-- One joined row: the bike observation keeps its time and payload-derived
features, and receives the matched weather vector when the match is within
the tolerance, else the zero vector. -/
def mergeAsofTol {β : Type} (tol : ℕ) (weather : List (ℕ × WeatherFeat)) (b : ℕ × β) :
    ℕ × β × WeatherFeat :=
  match asofBackward b.1 weather with
  | some w => if b.1 - w.1 ≤ tol then (b.1, b.2, w.2) else (b.1, b.2, wzero)
  | none => (b.1, b.2, wzero)

/-- The joined training frame of load_raw_from_db: sort both streams by
ingestion time, then as-of join with the 30-minute tolerance. -/
def buildTrainingFrame {β : Type} (bikes : List (ℕ × β)) (weather : List (ℕ × WeatherFeat)) :
    List (ℕ × β × WeatherFeat) :=
  (sortByTime bikes).map (mergeAsofTol 30 (sortByTime weather))

/-! ## Feature extraction (train.py lines 44-76; inference main.py lines 128-158)

Raw payloads are JSON values decoded by Python's json module. `bikes_features`
and `weather_features` are byte-identical between the trainer and the
inference service; they are embedded once, over a JSON value type, with
Python's dynamic failures (AttributeError on `.get` of a non-dict,
TypeError on `float()` of a non-number and on iterating a non-list)
surfaced as `Except.error`. Conversion of numeric strings by `float()` is
not modelled: the payloads carry JSON numbers where numbers are read. -/

/-- A JSON value as Python's json module decodes one. Booleans do not occur
in the fields these extractors touch and are left out. -/
inductive JVal where
  | null : JVal
  | num (q : ℚ) : JVal
  | str (s : String) : JVal
  | arr (xs : List JVal) : JVal
  | obj (fields : List (String × JVal)) : JVal

/-- Look a key up in a decoded JSON object (Python dict: keys are unique,
first match suffices). -/
def jlookup (k : String) : List (String × JVal) → Option JVal
  | [] => none
  | p :: rest => if p.1 = k then some p.2 else jlookup k rest

/-- Python's `d.get(key, default)`: returns the default only when the key is
absent, and raises AttributeError when `d` is not a dict (also when it is
None). -/
def pyGet (v : JVal) (k : String) (dflt : JVal) : Except String JVal :=
  match v with
  | JVal.obj fs => Except.ok ((jlookup k fs).getD dflt)
  | _ => Except.error "AttributeError"

/-- Python truthiness of a decoded JSON value, as used by the `or` fallbacks
in the extractors (None, 0, empty string, empty list, empty dict are falsy). -/
def pyTruthy : JVal → Bool
  | JVal.null => false
  | JVal.num q => decide (q ≠ 0)
  | JVal.str s => decide (s ≠ "")
  | JVal.arr xs => !xs.isEmpty
  | JVal.obj fs => !fs.isEmpty

/-- `float(v)` on a decoded JSON value: numbers convert, anything else the
extractors can meet here (None, list, dict, non-numeric string) raises. -/
def pyFloat : JVal → Except String ℚ
  | JVal.num q => Except.ok q
  | _ => Except.error "TypeError"

/-- What one optional count adds to its sum: nothing when it is None
(`if fb is not None:` skips it), else `float(fb)` (train.py lines 53-56). -/
def countContrib (v : JVal) : Except String ℚ :=
  match v with
  | JVal.null => Except.ok 0
  | v => pyFloat v

/-- One station's contribution to the sums of bikes_features:
`s.get("free_bikes")` and `s.get("empty_slots")`, each added via `float` only
when it is not None (train.py lines 50-56). -/
def stationCounts (s : JVal) : Except String (ℚ × ℚ) :=
  match pyGet s "free_bikes" JVal.null, pyGet s "empty_slots" JVal.null with
  | Except.error m, _ => Except.error m
  | _, Except.error m => Except.error m
  | Except.ok fb, Except.ok es =>
    match countContrib fb, countContrib es with
    | Except.ok f, Except.ok e => Except.ok (f, e)
    | Except.error m, _ => Except.error m
    | _, Except.error m => Except.error m

/-- The summation loop `for s in stations` of bikes_features. -/
def sumStations : List JVal → Except String (ℚ × ℚ)
  | [] => Except.ok (0, 0)
  | s :: rest =>
    match stationCounts s, sumStations rest with
    | Except.ok c, Except.ok r => Except.ok (c.1 + r.1, c.2 + r.2)
    | Except.error m, _ => Except.error m
    | _, Except.error m => Except.error m

/-- Iterating `for s in stations` demands a list: a truthy non-list either
raises TypeError at the loop itself (number) or yields non-dict items whose
`.get` raises AttributeError (string, dict); both collapse to an error. -/
def asStationList (v : JVal) : Except String (List JVal) :=
  match v with
  | JVal.arr xs => Except.ok xs
  | _ => Except.error "TypeError"

/-- The station list bikes_features iterates: `payload.get("network", {})`,
then `network.get("stations", []) or []` (train.py lines 45-46). -/
def payloadStations (payload : JVal) : Except String (List JVal) :=
  match pyGet payload "network" (JVal.obj []) with
  | Except.error m => Except.error m
  | Except.ok network =>
    match pyGet network "stations" (JVal.arr []) with
    | Except.error m => Except.error m
    | Except.ok st0 => asStationList (if pyTruthy st0 then st0 else JVal.arr [])

/-- The bike feature vector produced by bikes_features. -/
structure BikeFeat where
  stations_count : ℚ
  free_bikes : ℚ
  empty_slots : ℚ
  total_slots : ℚ
  free_ratio : ℚ
deriving DecidableEq

/-- bikes_features (train.py lines 44-67, identical in inference main.py):
sum the present station counts, `total = free + empty`,
`free_ratio = free / total if total > 0 else 0.0`, and
`stations_count = float(len(stations))`. -/
def bikes_features (payload : JVal) : Except String BikeFeat :=
  match payloadStations payload with
  | Except.error m => Except.error m
  | Except.ok sl =>
    match sumStations sl with
    | Except.error m => Except.error m
    | Except.ok c =>
      let total := c.1 + c.2
      Except.ok ⟨(sl.length : ℚ), c.1, c.2, total, if 0 < total then c.1 / total else 0⟩

/-- One field of weather_features: `float(cur.get(k, 0.0) or 0.0)`. -/
def weatherField (cur : JVal) (k : String) : Except String ℚ :=
  match pyGet cur k (JVal.num 0) with
  | Except.error m => Except.error m
  | Except.ok v => pyFloat (if pyTruthy v then v else JVal.num 0)

/-- weather_features (train.py lines 70-76, identical in inference main.py):
`cur = payload.get("current", {}) or {}` and the three numeric fields, with
missing or falsy values coerced to 0.0. -/
def weather_features (payload : JVal) : Except String WeatherFeat :=
  match pyGet payload "current" (JVal.obj []) with
  | Except.error m => Except.error m
  | Except.ok cur0 =>
    let cur := if pyTruthy cur0 then cur0 else JVal.obj []
    match weatherField cur "temperature_2m", weatherField cur "precipitation",
          weatherField cur "wind_speed_10m" with
    | Except.ok t, Except.ok p, Except.ok w => Except.ok ⟨t, p, w⟩
    | Except.error m, _, _ => Except.error m
    | _, Except.error m, _ => Except.error m
    | _, _, Except.error m => Except.error m

/-- An optional leaf field is "missing or null or a number": the shapes the
safety claim about the extractors ranges over for free_bikes, empty_slots and
the three weather fields. -/
def optFieldOk : Option JVal → Bool
  | none => true
  | some JVal.null => true
  | some (JVal.num _) => true
  | _ => false

/-- A station entry as the extractors' input universe admits one: a mapping
whose optional count fields are missing, null or numeric. -/
def stationOkShape : JVal → Bool
  | JVal.obj fs => optFieldOk (jlookup "free_bikes" fs) && optFieldOk (jlookup "empty_slots" fs)
  | _ => false

/-- The stations field: missing, null, or a list of station entries. -/
def stationsOkShape : Option JVal → Bool
  | none => true
  | some JVal.null => true
  | some (JVal.arr xs) => xs.all stationOkShape
  | _ => false

/-- The network field: missing, or a mapping with a well-shaped stations
field. A null network is deliberately NOT accepted here: `payload.get
("network", {})` returns None for it and the following `.get` raises. -/
def networkOkShape : Option JVal → Bool
  | none => true
  | some (JVal.obj fs) => stationsOkShape (jlookup "stations" fs)
  | _ => false

/-- Bike payloads on which extraction is claimed total: a mapping whose
network field is well-shaped. -/
def bikesPayloadOk : JVal → Bool
  | JVal.obj fs => networkOkShape (jlookup "network" fs)
  | _ => false

/-- The current field of a weather payload: missing, null, or a mapping whose
three leaf fields are each missing, null or numeric. -/
def currentOkShape : Option JVal → Bool
  | none => true
  | some JVal.null => true
  | some (JVal.obj fs) =>
    optFieldOk (jlookup "temperature_2m" fs) && optFieldOk (jlookup "precipitation" fs)
      && optFieldOk (jlookup "wind_speed_10m" fs)
  | _ => false

/-- Weather payloads on which extraction is claimed total. -/
def weatherPayloadOk : JVal → Bool
  | JVal.obj fs => currentOkShape (jlookup "current" fs)
  | _ => false

/-- Whether a payload is a structured mapping at all (a dict at top level). -/
def isObjJ : JVal → Bool
  | JVal.obj _ => true
  | _ => false

/-- A present numeric count field is nonnegative (absent and null fields pass:
they contribute nothing to the sums). -/
def fieldNonneg : Option JVal → Bool
  | some (JVal.num q) => decide (0 ≤ q)
  | _ => true

/-- A station whose present counts are nonnegative. -/
def stationNonneg : JVal → Bool
  | JVal.obj fs => fieldNonneg (jlookup "free_bikes" fs) && fieldNonneg (jlookup "empty_slots" fs)
  | _ => true

/-! ## Synthetic dataset (train.py, make_synthetic_df, lines 113-147)

numpy's seeded generator is an opaque deterministic collaborator: the
generator state type and the primitive draws (`rng.normal`, `rng.integers`,
`default_rng(seed)`) are parameters, threaded through the definition in
exactly the order the source draws them. `integers` already carries the
`astype(float)` of the source. -/

/-- Draw n values in sequence from a primitive draw, threading the generator
state. -/
def drawList {S : Type} (draw : S → ℚ × S) : ℕ → S → List ℚ × S
  | 0, s => ([], s)
  | Nat.succ k, s =>
    let p := draw s
    let r := drawList draw k p.2
    (p.1 :: r.1, r.2)

/-- `np.clip(x, 0.0, 1.0)`. -/
def clip01 (x : ℚ) : ℚ := max 0 (min x 1)

/-- `np.clip(x, 0, None)`: lower bound only. -/
def clipLo0 (x : ℚ) : ℚ := max 0 x

/-- `np.round`: round half to even, as numpy does. -/
def npRound (x : ℚ) : ℚ :=
  let f : ℤ := Int.floor x
  let d : ℚ := x - (f : ℚ)
  if d < 1/2 then (f : ℚ)
  else if 1/2 < d then (f : ℚ) + 1
  else if f % 2 = 0 then (f : ℚ) else (f : ℚ) + 1

/-- The eight feature columns of the synthetic frame, in source order. -/
structure SynthDF where
  stations_count : List ℚ
  free_bikes : List ℚ
  empty_slots : List ℚ
  total_slots : List ℚ
  free_ratio : List ℚ
  temp_2m : List ℚ
  precipitation : List ℚ
  wind_speed_10m : List ℚ
deriving DecidableEq

/-- The label-rule description returned with each dataset and stored in
metadata.json. The human-readable target_rule string of the source carries
the same name and threshold and is not modelled separately. -/
structure TargetMeta where
  rule_name : String
  threshold : ℚ
deriving DecidableEq

/-- make_synthetic_df: the two-mode free_ratio draw, clipping, the derived
count columns, the three weather columns, the fixed-threshold labels
`(free_ratio < 0.30).astype(int)` and the synthetic_fixed metadata, with
every primitive draw in the source's order. -/
def make_synthetic_df {S : Type} (normal : ℚ → ℚ → S → ℚ × S)
    (integers : ℕ → ℕ → S → ℚ × S) (initRng : ℕ → S) (n_samples seed : ℕ) :
    SynthDF × List ℕ × TargetMeta :=
  let s0 := initRng seed
  let a := drawList (normal (2/25) (3/100)) (n_samples / 2) s0
  let b := drawList (normal (13/20) (1/10)) (n_samples - n_samples / 2) a.2
  let free_ratio := (a.1 ++ b.1).map clip01
  let ts := drawList (integers 20 80) n_samples b.2
  let total_slots := ts.1
  let free_bikes := List.zipWith (fun r t => max 0 (min (npRound (r * t)) t)) free_ratio total_slots
  let empty_slots := List.zipWith (fun t f => t - f) total_slots free_bikes
  let sc := drawList (integers 10 200) n_samples ts.2
  let te := drawList (normal 15 7) n_samples sc.2
  let pr := drawList (normal (1/2) 1) n_samples te.2
  let wi := drawList (normal 10 4) n_samples pr.2
  let df : SynthDF :=
    ⟨sc.1, free_bikes, empty_slots, total_slots, free_ratio,
     te.1, pr.1.map clipLo0, wi.1.map clipLo0⟩
  let y := free_ratio.map (fun r => if r < 3/10 then 1 else 0)
  (df, y, ⟨"synthetic_fixed", 3/10⟩)

/-! ## Trainer split and artifacts (train.py, train_and_save and main) -/

/-- The split configuration train_and_save passes to train_test_split
(lines 160-170): fixed 25 percent test fraction, fixed random_state, and
stratification by the label array exactly when both binary classes have at
least two members (`counts = np.bincount(y, minlength=2)`,
`strat = y if counts.min() >= 2 else None`), with the fallback printed. -/
structure SplitDecision where
  test_size : ℚ
  random_state : ℕ
  stratify : Option (List (Fin 2))
  logs : List String
deriving DecidableEq

/-- The warning printed when stratification is dropped. -/
def stratWarnMsg : String :=
  "[WARN] Not enough samples per class for stratify; using non-stratified split."

/-- The split decision of train_and_save on a binary label array. -/
def splitDecision (y : List (Fin 2)) : SplitDecision :=
  if 2 ≤ min (y.count 0) (y.count 1) then
    ⟨1/4, 42, some y, []⟩
  else
    ⟨1/4, 42, none, [stratWarnMsg]⟩

/-- Training aborts in DB mode before anything is written. -/
inductive TrainError where
  | notEnoughSamples (n : ℕ)
deriving DecidableEq

/-- The three artifact files train_and_save writes (lines 192-210). -/
def artifactFiles : List String := ["model.joblib", "metrics.json", "metadata.json"]

/-- What a completed training run leaves on disk: the artifact files and the
label-rule metadata. The fitted pipeline and its metric values are opaque
numerics and not part of any claim settled here. -/
structure TrainRunOut where
  writtenFiles : List String
  meta : TargetMeta
deriving DecidableEq

/-- A row of the joined DB training frame, as train_and_save consumes it. -/
structure Feat8 where
  stations_count : ℚ
  free_bikes : ℚ
  empty_slots : ℚ
  total_slots : ℚ
  free_ratio : ℚ
  temp_2m : ℚ
  precipitation : ℚ
  wind_speed_10m : ℚ
deriving DecidableEq

/-- The DB-mode tail of main (train.py lines 229-241): refuse outright with
the explicit message data when fewer than 20 rows joined — `raise SystemExit`
runs before any file is opened — else derive the q20 labels and train,
writing the three artifact files. -/
def dbTrainMain (df : List Feat8) : Except TrainError TrainRunOut :=
  if df.length < 20 then Except.error (TrainError.notEnoughSamples df.length)
  else
    let fr := df.map (fun r => r.free_ratio)
    let thr := q20Threshold fr
    Except.ok ⟨artifactFiles, ⟨"q20", thr⟩⟩

/-- The artifact files a finished run has written: none on the error path,
which exits before the first open(). -/
def filesWritten (r : Except TrainError TrainRunOut) : List String :=
  match r with
  | Except.ok o => o.writtenFiles
  | Except.error _ => []

/-! ## Inference service (inference main.py, lines 79-81, 228-244)

The module-level serving state is the triple MODEL, MODEL_VERSION, FEATURES.
The fitted pipeline's predict_proba is an opaque numeric function from the
ordered feature values to the positive-class probability. -/

/-- The in-memory serving state of the inference service. -/
structure InfState where
  MODEL : Option (List ℚ → ℚ)
  MODEL_VERSION : String
  FEATURES : List String

/-- The two rejection classes _prepare_row raises: HTTPException(503) when no
model is loaded, HTTPException(400, missing list) when required features are
absent. -/
inductive PredictError where
  | modelNotLoaded : PredictError
  | missingFeatures (missing : List String) : PredictError
deriving DecidableEq

/-- The HTTP status each rejection carries. -/
def statusCode : PredictError → ℕ
  | PredictError.modelNotLoaded => 503
  | PredictError.missingFeatures _ => 400

/-- Python dict lookup on a feature mapping. -/
def dictGet (d : List (String × ℚ)) (k : String) : Option ℚ :=
  match d with
  | [] => none
  | p :: rest => if p.1 = k then some p.2 else dictGet rest k

/-- _prepare_row (main.py lines 228-237) on an explicitly supplied feature
mapping: 503 when MODEL is None, else collect the schema features absent
from the request, reject with them when any, else build the row
`{f: float(feats[f]) for f in FEATURES}` in schema order. -/
def prepareRow (st : InfState) (feats : List (String × ℚ)) :
    Except PredictError (List (String × ℚ)) :=
  match st.MODEL with
  | none => Except.error PredictError.modelNotLoaded
  | some _ =>
    let missing := st.FEATURES.filter (fun f => (dictGet feats f).isNone)
    if missing = [] then
      Except.ok (st.FEATURES.map (fun f => (f, (dictGet feats f).getD 0)))
    else Except.error (PredictError.missingFeatures missing)

/-- The /predict flow: _prepare_row, then _predict_from_row (lines 240-244),
which lays the row out as a single-row table in the FEATURES column order,
reads the positive-class probability from the pipeline and thresholds it at
0.5. -/
def predictEndpoint (st : InfState) (feats : List (String × ℚ)) :
    Except PredictError (ℕ × ℚ) :=
  match prepareRow st feats with
  | Except.error e => Except.error e
  | Except.ok row =>
    match st.MODEL with
    | none => Except.error PredictError.modelNotLoaded
    | some m =>
      let proba := m (st.FEATURES.map (fun f => (dictGet row f).getD 0))
      Except.ok (if 1/2 ≤ proba then 1 else 0, proba)

/-! ## Reload versus predict interleavings (inference main.py, lines 189-244)

try_load_model assigns the three module globals one after the other —
`FEATURES = ...` (line 208), `MODEL_VERSION = ...` (line 209),
`MODEL = joblib.load(...)` (line 210) — with no lock, while a predict
running on another worker thread reads MODEL and FEATURES at several
points (lines 229, 233, 237, 241, 242). Each global's content is
abstracted to the artifact generation it came from, and a run is any
interleaving of the reload's writes with the predict's reads. -/

/-- The three module globals, each carrying the artifact generation of the
value it currently holds. -/
structure Globals where
  MODEL : ℕ
  MODEL_VERSION : ℕ
  FEATURES : ℕ
deriving DecidableEq

/-- Atomic events: the reload's three writes and the predict's reads of
MODEL and FEATURES. -/
inductive Ev where
  | wF : Ev
  | wV : Ev
  | wM : Ev
  | rM : Ev
  | rF : Ev
deriving DecidableEq

/-- What a predict call has observed: every value its reads of MODEL and of
FEATURES returned. -/
structure PredictObs where
  modelReads : List ℕ
  featureReads : List ℕ
deriving DecidableEq

/-- One event against the globals: writes install the new artifact
generation, reads record the current value. -/
def stepEv (newv : ℕ) (g : Globals) (o : PredictObs) : Ev → Globals × PredictObs
  | Ev.wF => ({ g with FEATURES := newv }, o)
  | Ev.wV => ({ g with MODEL_VERSION := newv }, o)
  | Ev.wM => ({ g with MODEL := newv }, o)
  | Ev.rM => (g, { o with modelReads := o.modelReads ++ [g.MODEL] })
  | Ev.rF => (g, { o with featureReads := o.featureReads ++ [g.FEATURES] })

/-- Run a schedule of events. -/
def runSched (newv : ℕ) : List Ev → Globals → PredictObs → Globals × PredictObs
  | [], g, o => (g, o)
  | e :: rest, g, o =>
    let p := stepEv newv g o e
    runSched newv rest p.1 p.2

/-- The reload's writes in source order (main.py lines 208-210). -/
def reloadEvents : List Ev := [Ev.wF, Ev.wV, Ev.wM]

/-- The predict's reads in source order: the None check of MODEL, the missing
scan of FEATURES, the row comprehension over FEATURES, the column list of the
single-row table, and the MODEL.predict_proba call. -/
def predictEvents : List Ev := [Ev.rM, Ev.rF, Ev.rF, Ev.rF, Ev.rM]

/-- Whether a schedule is an interleaving of two event sequences, each kept
in program order. -/
def isInterleaving : List Ev → List Ev → List Ev → Bool
  | [], [], [] => true
  | _ :: _, [], [] => false
  | [], _ :: _, [] => false
  | _ :: _, _ :: _, [] => false
  | [], [], _ :: _ => false
  | [], b :: bs, c :: cs => decide (b = c) && isInterleaving [] bs cs
  | a :: as, [], c :: cs => decide (a = c) && isInterleaving as [] cs
  | a :: as, b :: bs, c :: cs =>
    (decide (a = c) && isInterleaving as (b :: bs) cs)
      || (decide (b = c) && isInterleaving (a :: as) bs cs)

/-- A predict observation is version-consistent when every value it read,
from MODEL or from FEATURES, came from one artifact generation. -/
def obsConsistent (o : PredictObs) : Bool :=
  match o.modelReads ++ o.featureReads with
  | [] => true
  | v :: rest => rest.all (fun x => decide (x = v))

/-- The initial state: artifact generation 1 fully installed. -/
def gOld : Globals := ⟨1, 1, 1⟩

/-- The interleaving that tears the update: the reload installs the new
FEATURES first, the whole predict runs, then the reload installs
MODEL_VERSION and MODEL. -/
def tornSchedule : List Ev :=
  [Ev.wF, Ev.rM, Ev.rF, Ev.rF, Ev.rF, Ev.rM, Ev.wV, Ev.wM]

/-! ## Helper lemmas -/

theorem mem_insertLe {α : Type} (le : α → α → Bool) (x a : α) (l : List α) :
    a ∈ insertLe le x l ↔ a = x ∨ a ∈ l := by
  induction l with
  | nil => simp [insertLe]
  | cons y rest ih =>
    rw [insertLe]
    split
    · simp [List.mem_cons]
    · simp only [List.mem_cons, ih]
      tauto

theorem mem_sortLe {α : Type} (le : α → α → Bool) (a : α) (l : List α) :
    a ∈ sortLe le l ↔ a ∈ l := by
  induction l with
  | nil => simp [sortLe]
  | cons y rest ih =>
    rw [sortLe, mem_insertLe]
    simp [ih]

theorem pairwise_insertLe {α : Type} (le : α → α → Bool)
    (htrans : ∀ a b c, le a b = true → le b c = true → le a c = true)
    (htot : ∀ a b, le a b = true ∨ le b a = true) (x : α) (l : List α)
    (h : l.Pairwise (fun a b => le a b = true)) :
    (insertLe le x l).Pairwise (fun a b => le a b = true) := by
  induction l with
  | nil => simp [insertLe]
  | cons y rest ih =>
    rw [insertLe]
    rcases List.pairwise_cons.mp h with ⟨hy, hrest⟩
    by_cases hxy : le x y = true
    · rw [if_pos hxy]
      refine List.pairwise_cons.mpr ⟨?_, h⟩
      intro z hz
      rcases List.mem_cons.mp hz with hzy | hz
      · rw [hzy]
        exact hxy
      · exact htrans x y z hxy (hy z hz)
    · rw [if_neg hxy]
      refine List.pairwise_cons.mpr ⟨?_, ih hrest⟩
      intro z hz
      rcases (mem_insertLe le x z rest).mp hz with hzx | hz
      · rw [hzx]
        rcases htot x y with hx | hyx
        · exact absurd hx hxy
        · exact hyx
      · exact hy z hz

theorem pairwise_sortLe {α : Type} (le : α → α → Bool)
    (htrans : ∀ a b c, le a b = true → le b c = true → le a c = true)
    (htot : ∀ a b, le a b = true ∨ le b a = true) (l : List α) :
    (sortLe le l).Pairwise (fun a b => le a b = true) := by
  induction l with
  | nil => simp [sortLe]
  | cons y rest ih => exact pairwise_insertLe le htrans htot y (sortLe le rest) ih

theorem sortByTime_mem {α : Type} (a : ℕ × α) (l : List (ℕ × α)) :
    a ∈ sortByTime l ↔ a ∈ l :=
  mem_sortLe _ a l

theorem sortByTime_pairwise {α : Type} (l : List (ℕ × α)) :
    (sortByTime l).Pairwise (fun a b => a.1 ≤ b.1) := by
  have h := pairwise_sortLe (fun a b : ℕ × α => decide (a.1 ≤ b.1))
    (fun a b c hab hbc => by
      simp only [decide_eq_true_eq] at hab hbc ⊢
      omega)
    (fun a b => by
      simp only [decide_eq_true_eq]
      omega) l
  exact h.imp (fun hab => by simpa using hab)

theorem asofBackward_some {α : Type} (t : ℕ) (l : List (ℕ × α)) (w : ℕ × α)
    (h : asofBackward t l = some w) : w ∈ l ∧ w.1 ≤ t := by
  induction l with
  | nil => simp [asofBackward] at h
  | cons x rest ih =>
    rw [asofBackward] at h
    cases hr : asofBackward t rest with
    | some r =>
      rw [hr] at h
      cases h
      rcases ih hr with ⟨hmem, hle⟩
      exact ⟨List.mem_cons_of_mem x hmem, hle⟩
    | none =>
      rw [hr] at h
      by_cases hx : x.1 ≤ t
      · rw [if_pos hx] at h
        cases h
        exact ⟨List.mem_cons_self _ _, hx⟩
      · rw [if_neg hx] at h
        cases h

theorem asofBackward_none {α : Type} (t : ℕ) (l : List (ℕ × α))
    (h : asofBackward t l = none) : ∀ w ∈ l, ¬ w.1 ≤ t := by
  induction l with
  | nil => simp
  | cons x rest ih =>
    rw [asofBackward] at h
    cases hr : asofBackward t rest with
    | some r => rw [hr] at h; cases h
    | none =>
      rw [hr] at h
      intro w hw
      rcases List.mem_cons.mp hw with hwx | hw
      · by_cases hx : x.1 ≤ t
        · rw [if_pos hx] at h
          cases h
        · rw [hwx]
          exact hx
      · exact ih hr w hw

theorem asofBackward_max {α : Type} (t : ℕ) (l : List (ℕ × α))
    (hs : l.Pairwise (fun a b => a.1 ≤ b.1)) (w : ℕ × α)
    (h : asofBackward t l = some w) : ∀ v ∈ l, v.1 ≤ t → v.1 ≤ w.1 := by
  induction l with
  | nil => simp
  | cons x rest ih =>
    rcases List.pairwise_cons.mp hs with ⟨hx, hrest⟩
    rw [asofBackward] at h
    cases hr : asofBackward t rest with
    | some r =>
      rw [hr] at h
      cases h
      intro v hv hvt
      rcases List.mem_cons.mp hv with hvx | hv
      · rw [hvx]
        exact hx w ((asofBackward_some t rest w hr).1)
      · exact ih hrest hr v hv hvt
    | none =>
      rw [hr] at h
      by_cases hxt : x.1 ≤ t
      · rw [if_pos hxt] at h
        cases h
        intro v hv hvt
        rcases List.mem_cons.mp hv with hvx | hv
        · rw [hvx]
        · exact absurd hvt (asofBackward_none t rest hr v hv)
      · rw [if_neg hxt] at h
        cases h

theorem countContrib_getD (o : Option JVal) (h : optFieldOk o = true) :
    ∃ q, countContrib (o.getD JVal.null) = Except.ok q
      ∧ (fieldNonneg o = true → 0 ≤ q) := by
  cases o with
  | none => exact ⟨0, rfl, fun _ => le_refl 0⟩
  | some v =>
    cases v with
    | null => exact ⟨0, rfl, fun _ => le_refl 0⟩
    | num q => exact ⟨q, rfl, fun hq => by simpa [fieldNonneg] using hq⟩
    | str s => simp [optFieldOk] at h
    | arr xs => simp [optFieldOk] at h
    | obj fs => simp [optFieldOk] at h

theorem countContrib_nonneg (o : Option JVal) (q : ℚ)
    (h : countContrib (o.getD JVal.null) = Except.ok q) (hn : fieldNonneg o = true) :
    0 ≤ q := by
  cases o with
  | none =>
    simp only [Option.getD, countContrib] at h
    cases h
    exact le_refl 0
  | some v =>
    cases v with
    | null =>
      simp only [Option.getD, countContrib] at h
      cases h
      exact le_refl 0
    | num r =>
      simp only [Option.getD, countContrib, pyFloat] at h
      cases h
      simpa [fieldNonneg] using hn
    | str s => simp [countContrib, pyFloat] at h
    | arr xs => simp [countContrib, pyFloat] at h
    | obj fs => simp [countContrib, pyFloat] at h

theorem stationCounts_spec (s : JVal) (h : stationOkShape s = true) :
    ∃ f e, stationCounts s = Except.ok (f, e)
      ∧ (stationNonneg s = true → 0 ≤ f ∧ 0 ≤ e) := by
  cases s with
  | obj fs =>
    simp only [stationOkShape, Bool.and_eq_true] at h
    obtain ⟨f, hf, hfn⟩ := countContrib_getD _ h.1
    obtain ⟨e, he, hen⟩ := countContrib_getD _ h.2
    refine ⟨f, e, ?_, ?_⟩
    · simp [stationCounts, pyGet, hf, he]
    · intro hn
      simp only [stationNonneg, Bool.and_eq_true] at hn
      exact ⟨hfn hn.1, hen hn.2⟩
  | null => simp [stationOkShape] at h
  | num q => simp [stationOkShape] at h
  | str s2 => simp [stationOkShape] at h
  | arr xs => simp [stationOkShape] at h

theorem stationCounts_nonneg (s : JVal) (f e : ℚ)
    (h : stationCounts s = Except.ok (f, e)) (hn : stationNonneg s = true) :
    0 ≤ f ∧ 0 ≤ e := by
  cases s with
  | obj fs =>
    simp only [stationNonneg, Bool.and_eq_true] at hn
    cases hcf : countContrib ((jlookup "free_bikes" fs).getD JVal.null) with
    | error m => simp [stationCounts, pyGet, hcf] at h
    | ok q1 =>
      cases hce : countContrib ((jlookup "empty_slots" fs).getD JVal.null) with
      | error m => simp [stationCounts, pyGet, hcf, hce] at h
      | ok q2 =>
        have hq : q1 = f ∧ q2 = e := by
          simp [stationCounts, pyGet, hcf, hce] at h
          exact ⟨h.1, h.2⟩
        rcases hq with ⟨hq1, hq2⟩
        rw [← hq1, ← hq2]
        exact ⟨countContrib_nonneg _ q1 hcf hn.1, countContrib_nonneg _ q2 hce hn.2⟩
  | null => simp [stationCounts, pyGet] at h
  | num q => simp [stationCounts, pyGet] at h
  | str s2 => simp [stationCounts, pyGet] at h
  | arr xs => simp [stationCounts, pyGet] at h

theorem sumStations_isOk (sl : List JVal) (h : sl.all stationOkShape = true) :
    ∃ c, sumStations sl = Except.ok c := by
  induction sl with
  | nil => exact ⟨(0, 0), rfl⟩
  | cons s rest ih =>
    simp only [List.all_cons, Bool.and_eq_true] at h
    obtain ⟨f, e, hfe, _⟩ := stationCounts_spec s h.1
    obtain ⟨c, hc⟩ := ih h.2
    exact ⟨(f + c.1, e + c.2), by simp [sumStations, hfe, hc]⟩

theorem sumStations_nonneg (sl : List JVal) (c : ℚ × ℚ)
    (h : sumStations sl = Except.ok c) (hn : sl.all stationNonneg = true) :
    0 ≤ c.1 ∧ 0 ≤ c.2 := by
  induction sl generalizing c with
  | nil =>
    simp only [sumStations] at h
    cases h
    exact ⟨le_refl 0, le_refl 0⟩
  | cons s rest ih =>
    simp only [List.all_cons, Bool.and_eq_true] at hn
    cases hcs : stationCounts s with
    | error m => simp [sumStations, hcs] at h
    | ok p =>
      cases hrest : sumStations rest with
      | error m => simp [sumStations, hcs, hrest] at h
      | ok r =>
        have hc : c = (p.1 + r.1, p.2 + r.2) := by
          simp [sumStations, hcs, hrest] at h
          exact h.symm
        rcases stationCounts_nonneg s p.1 p.2 (by simpa using hcs) hn.1 with ⟨hp1, hp2⟩
        rcases ih r hrest hn.2 with ⟨hr1, hr2⟩
        rw [hc]
        exact ⟨add_nonneg hp1 hr1, add_nonneg hp2 hr2⟩

theorem payloadStations_ok (p : JVal) (h : bikesPayloadOk p = true) :
    ∃ sl, payloadStations p = Except.ok sl ∧ sl.all stationOkShape = true := by
  cases p with
  | obj fs =>
    simp only [bikesPayloadOk] at h
    cases hnet : jlookup "network" fs with
    | none =>
      refine ⟨[], ?_, rfl⟩
      simp [payloadStations, pyGet, hnet, jlookup, pyTruthy, asStationList]
    | some v =>
      rw [hnet] at h
      cases v with
      | obj fs2 =>
        simp only [networkOkShape] at h
        cases hst : jlookup "stations" fs2 with
        | none =>
          refine ⟨[], ?_, rfl⟩
          simp [payloadStations, pyGet, hnet, hst, pyTruthy, asStationList]
        | some w =>
          rw [hst] at h
          cases w with
          | null =>
            refine ⟨[], ?_, rfl⟩
            simp [payloadStations, pyGet, hnet, hst, pyTruthy, asStationList]
          | arr xs =>
            cases xs with
            | nil =>
              refine ⟨[], ?_, rfl⟩
              simp [payloadStations, pyGet, hnet, hst, pyTruthy, asStationList]
            | cons a t =>
              refine ⟨a :: t, ?_, by simpa [stationsOkShape] using h⟩
              simp [payloadStations, pyGet, hnet, hst, pyTruthy, asStationList]
          | num q => simp [stationsOkShape] at h
          | str s2 => simp [stationsOkShape] at h
          | obj fs3 => simp [stationsOkShape] at h
      | null => simp [networkOkShape] at h
      | num q => simp [networkOkShape] at h
      | str s2 => simp [networkOkShape] at h
      | arr xs => simp [networkOkShape] at h
  | null => simp [bikesPayloadOk] at h
  | num q => simp [bikesPayloadOk] at h
  | str s2 => simp [bikesPayloadOk] at h
  | arr xs => simp [bikesPayloadOk] at h

theorem bikes_features_total (p : JVal) (h : bikesPayloadOk p = true) :
    (bikes_features p).isOk = true := by
  obtain ⟨sl, hsl, hall⟩ := payloadStations_ok p h
  obtain ⟨c, hc⟩ := sumStations_isOk sl hall
  simp [bikes_features, hsl, hc, Except.isOk, Except.toBool]

theorem weatherField_total (fs2 : List (String × JVal)) (k : String)
    (h : optFieldOk (jlookup k fs2) = true) :
    ∃ q, weatherField (JVal.obj fs2) k = Except.ok q := by
  cases hk : jlookup k fs2 with
  | none => exact ⟨0, by simp [weatherField, pyGet, hk, pyTruthy, pyFloat]⟩
  | some v =>
    rw [hk] at h
    cases v with
    | null => exact ⟨0, by simp [weatherField, pyGet, hk, pyTruthy, pyFloat]⟩
    | num q =>
      by_cases hq : q = 0
      · exact ⟨0, by simp [weatherField, pyGet, hk, pyTruthy, hq, pyFloat]⟩
      · exact ⟨q, by simp [weatherField, pyGet, hk, pyTruthy, hq, pyFloat]⟩
    | str s2 => simp [optFieldOk] at h
    | arr xs => simp [optFieldOk] at h
    | obj fs3 => simp [optFieldOk] at h

theorem weatherField_empty (k : String) :
    weatherField (JVal.obj []) k = Except.ok 0 := by
  simp [weatherField, pyGet, jlookup, pyTruthy, pyFloat]

theorem weather_features_total (p : JVal) (h : weatherPayloadOk p = true) :
    (weather_features p).isOk = true := by
  cases p with
  | obj fs =>
    simp only [weatherPayloadOk] at h
    cases hcur : jlookup "current" fs with
    | none =>
      simp [weather_features, pyGet, hcur, pyTruthy, weatherField_empty, Except.isOk, Except.toBool]
    | some v =>
      rw [hcur] at h
      cases v with
      | null => simp [weather_features, pyGet, hcur, pyTruthy, weatherField_empty, Except.isOk, Except.toBool]
      | obj fs2 =>
        simp only [currentOkShape, Bool.and_eq_true] at h
        obtain ⟨⟨h1, h2⟩, h3⟩ := h
        cases fs2 with
        | nil => simp [weather_features, pyGet, hcur, pyTruthy, weatherField_empty, Except.isOk, Except.toBool]
        | cons a t =>
          obtain ⟨q1, hq1⟩ := weatherField_total (a :: t) "temperature_2m" h1
          obtain ⟨q2, hq2⟩ := weatherField_total (a :: t) "precipitation" h2
          obtain ⟨q3, hq3⟩ := weatherField_total (a :: t) "wind_speed_10m" h3
          simp [weather_features, pyGet, hcur, pyTruthy, hq1, hq2, hq3, Except.isOk, Except.toBool]
      | num q => simp [currentOkShape] at h
      | str s2 => simp [currentOkShape] at h
      | arr xs => simp [currentOkShape] at h
  | null => simp [weatherPayloadOk] at h
  | num q => simp [weatherPayloadOk] at h
  | str s2 => simp [weatherPayloadOk] at h
  | arr xs => simp [weatherPayloadOk] at h

theorem features_err_of_not_obj (p : JVal) (h : isObjJ p = false) :
    (bikes_features p).isOk = false ∧ (weather_features p).isOk = false := by
  cases p with
  | obj fs => simp [isObjJ] at h
  | null => exact ⟨rfl, rfl⟩
  | num q => exact ⟨rfl, rfl⟩
  | str s2 => exact ⟨rfl, rfl⟩
  | arr xs => exact ⟨rfl, rfl⟩

/-! ## Claim theorems -/

/-- C1, counterexample: on free_ratio values [each tenths] the trainer's
threshold `fr.quantile(0.20)` is NOT 0.12 and the labels are NOT
[1, 1, 0, 0, 0]: the interpolation position is 0.2 * 4 = 0.8, which lies
between the two smallest entries 0.1 and 0.1, so the threshold is 0.1, and
the strict comparison makes every label 0. -/
theorem C1_counterexample :
    q20Threshold [1/10, 1/10, 1/5, 3/10, 9/10] ≠ 12/100
      ∧ q20Labels [1/10, 1/10, 1/5, 3/10, 9/10] ≠ [1, 1, 0, 0, 0] := by
  have ht : q20Threshold [1/10, 1/10, 1/5, 3/10, 9/10] = 1/10 := by
    norm_num [q20Threshold, quantileLinear, sortLe, insertLe, List.getD]
  constructor
  · rw [ht]
    norm_num
  · simp only [q20Labels, ht]
    norm_num

/-- C1, amended: for the training frame whose free_ratio column is
[0.1, 0.1, 0.2, 0.3, 0.9], the threshold the trainer computes as the 20th
percentile equals 0.1 (not 0.12), and the derived labels (1 where free_ratio
is strictly below the threshold, else 0) are [0, 0, 0, 0, 0] (not
[1, 1, 0, 0, 0]). -/
theorem C1_amended :
    q20Threshold [1/10, 1/10, 1/5, 3/10, 9/10] = 1/10
      ∧ q20Labels [1/10, 1/10, 1/5, 3/10, 9/10] = [0, 0, 0, 0, 0] := by
  have ht : q20Threshold [1/10, 1/10, 1/5, 3/10, 9/10] = 1/10 := by
    norm_num [q20Threshold, quantileLinear, sortLe, insertLe, List.getD]
  refine ⟨ht, ?_⟩
  simp only [q20Labels, ht]
  norm_num

/-- C6: in data-derived (DB) training mode, a joined frame of fewer than 20
rows makes training terminate fatally with the explicit
not-enough-samples message carrying the row count, and no artifact file is
written (the error path runs before any file is opened). -/
theorem C6_insufficient_data (df : List Feat8) (h : df.length < 20) :
    dbTrainMain df = Except.error (TrainError.notEnoughSamples df.length)
      ∧ filesWritten (dbTrainMain df) = [] := by
  constructor
  · simp [dbTrainMain, if_pos h]
  · simp [filesWritten, dbTrainMain, if_pos h]

/-- C6 witness at the empty frame. -/
theorem C6_insufficient_data_witness :
    dbTrainMain [] = Except.error (TrainError.notEnoughSamples 0)
      ∧ filesWritten (dbTrainMain []) = [] :=
  C6_insufficient_data [] (by decide)

/-- C7: the trainer's split is 75/25 (test fraction one quarter), stratified
by the label array exactly when both classes have at least 2 examples in the
full array, and when stratification is dropped the fallback warning is
logged, not silent. -/
theorem C7_stratify_rule (y : List (Fin 2)) :
    (splitDecision y).test_size = 1/4
      ∧ ((splitDecision y).stratify = some y ↔ (2 ≤ y.count 0 ∧ 2 ≤ y.count 1))
      ∧ ((splitDecision y).stratify = none → stratWarnMsg ∈ (splitDecision y).logs) := by
  by_cases h : 2 ≤ min (y.count 0) (y.count 1)
  · have hc : 2 ≤ y.count 0 ∧ 2 ≤ y.count 1 := by
      constructor <;> omega
    simp [splitDecision, if_pos h, hc]
  · have hc : ¬ (2 ≤ y.count 0 ∧ 2 ≤ y.count 1) := by omega
    simp [splitDecision, if_neg h, hc, stratWarnMsg]

/-- C7 witness: on [0, 0, 0] stratification is dropped and the warning is in
the logs; on [0, 0, 1, 1] the split is stratified by the full label array. -/
theorem C7_stratify_rule_witness :
    stratWarnMsg ∈ (splitDecision [0, 0, 0]).logs
      ∧ (splitDecision [0, 0, 1, 1]).stratify = some [0, 0, 1, 1]
      ∧ (splitDecision [0, 0, 1, 1]).test_size = 1/4 :=
  ⟨(C7_stratify_rule [0, 0, 0]).2.2 (by decide),
   (C7_stratify_rule [0, 0, 1, 1]).2.1.mpr (by decide),
   (C7_stratify_rule [0, 0, 1, 1]).1⟩

/-- C2: in the joined training frame, every row's weather part is either the
feature vector of a weather observation at or before the row's time, within
the 30-minute tolerance and latest among the observations at or before the
row (the as-of match), or — when no weather observation lies at or before
the row within the tolerance — exactly the all-zero vector, never a missing
value. -/
theorem C2_asof_join {β : Type} (bikes : List (ℕ × β)) (weather : List (ℕ × WeatherFeat)) :
    ∀ r ∈ buildTrainingFrame bikes weather,
      (∃ w ∈ weather, w.1 ≤ r.1 ∧ r.1 - w.1 ≤ 30 ∧ r.2.2 = w.2
          ∧ ∀ v ∈ weather, v.1 ≤ r.1 → v.1 ≤ w.1)
        ∨ ((∀ w ∈ weather, ¬ (w.1 ≤ r.1 ∧ r.1 - w.1 ≤ 30)) ∧ r.2.2 = wzero) := by
  intro r hr
  rw [buildTrainingFrame] at hr
  rcases List.mem_map.mp hr with ⟨b, hb, hbr⟩
  rw [mergeAsofTol] at hbr
  cases ha : asofBackward b.1 (sortByTime weather) with
  | none =>
    rw [ha] at hbr
    right
    constructor
    · intro w hw hcontra
      exact asofBackward_none b.1 (sortByTime weather) ha w
        ((sortByTime_mem w weather).mpr hw) (by rw [← hbr] at hcontra; exact hcontra.1)
    · rw [← hbr]
  | some w =>
    rw [ha] at hbr
    have hbr2 : (if b.1 - w.1 ≤ 30 then (b.1, b.2, w.2) else (b.1, b.2, wzero)) = r := hbr
    rcases asofBackward_some b.1 (sortByTime weather) w ha with ⟨hwmem, hwle⟩
    have hwmax := asofBackward_max b.1 (sortByTime weather) (sortByTime_pairwise weather) w ha
    by_cases htol : b.1 - w.1 ≤ 30
    · rw [if_pos htol] at hbr2
      left
      refine ⟨w, (sortByTime_mem w weather).mp hwmem, ?_, ?_, ?_, ?_⟩
      · rw [← hbr2]
        exact hwle
      · rw [← hbr2]
        exact htol
      · rw [← hbr2]
      · intro v hv hvle
        rw [← hbr2] at hvle
        exact hwmax v ((sortByTime_mem v weather).mpr hv) hvle
    · rw [if_neg htol] at hbr2
      right
      constructor
      · intro v hv hcontra
        rw [← hbr2] at hcontra
        have hvw := hwmax v ((sortByTime_mem v weather).mpr hv) hcontra.1
        omega
      · rw [← hbr2]

/-- C2 witness: a single bike observation at minute 40 joined against a
single weather observation at minute 20 (gap 20, within tolerance). -/
theorem C2_asof_join_witness :
    (∃ w ∈ [((20:ℕ), (⟨5, 6, 7⟩ : WeatherFeat))], w.1 ≤ 40 ∧ 40 - w.1 ≤ 30
        ∧ (⟨5, 6, 7⟩ : WeatherFeat) = w.2
        ∧ ∀ v ∈ [((20:ℕ), (⟨5, 6, 7⟩ : WeatherFeat))], v.1 ≤ 40 → v.1 ≤ w.1)
      ∨ ((∀ w ∈ [((20:ℕ), (⟨5, 6, 7⟩ : WeatherFeat))], ¬ (w.1 ≤ 40 ∧ 40 - w.1 ≤ 30))
          ∧ (⟨5, 6, 7⟩ : WeatherFeat) = wzero) :=
  C2_asof_join [((40:ℕ), (0:ℚ))] [((20:ℕ), (⟨5, 6, 7⟩ : WeatherFeat))]
    ((40:ℕ), (0:ℚ), (⟨5, 6, 7⟩ : WeatherFeat)) (by decide)

/-- A single-station payload whose free_bikes count is negative: the shape is
structurally valid, the sums go through, and the resulting ratio leaves
[0, 1]. -/
def stationNegEx : JVal :=
  JVal.obj [("network", JVal.obj [("stations", JVal.arr
    [JVal.obj [("free_bikes", JVal.num (-1)), ("empty_slots", JVal.num 2)]])])]

/-- C3, counterexample: the claim quantifies over every stations list, but on
a station with free_bikes = -1 and empty_slots = 2 the extractor returns
total_slots = 1 > 0 with free_ratio = -1, violating 0 <= free_ratio <= 1. -/
theorem C3_counterexample :
    bikes_features stationNegEx = Except.ok ⟨1, -1, 2, 1, -1⟩
      ∧ (0:ℚ) < 1 ∧ (-1:ℚ) < 0 := by
  refine ⟨?_, by norm_num, by norm_num⟩
  simp [stationNegEx, bikes_features, payloadStations, pyGet, jlookup, pyTruthy,
    asStationList, sumStations, stationCounts, countContrib, pyFloat]
  norm_num

/-- C3, amended: whenever bikes_features succeeds, total_slots is the sum of
the two count sums, stations_count is the number of station entries the
payload carries (missing counts included), free_ratio equals
free_bikes / total_slots when total_slots is positive and 0 otherwise; and
when additionally every present count in the payload is nonnegative, the
sums are nonnegative and the ratio lies in [0, 1] whenever total_slots is
positive. -/
theorem C3_amended (p : JVal) (sl : List JVal) (f : BikeFeat)
    (hs : payloadStations p = Except.ok sl) (h : bikes_features p = Except.ok f) :
    f.total_slots = f.free_bikes + f.empty_slots
      ∧ f.stations_count = (sl.length : ℚ)
      ∧ (0 < f.total_slots → f.free_ratio = f.free_bikes / f.total_slots)
      ∧ (¬ 0 < f.total_slots → f.free_ratio = 0)
      ∧ (sl.all stationNonneg = true →
          0 ≤ f.free_bikes ∧ 0 ≤ f.empty_slots
            ∧ (0 < f.total_slots → 0 ≤ f.free_ratio ∧ f.free_ratio ≤ 1)) := by
  rw [bikes_features, hs] at h
  have h2 : (match sumStations sl with
      | Except.error m => Except.error m
      | Except.ok c => Except.ok (⟨(sl.length : ℚ), c.1, c.2, c.1 + c.2,
          if 0 < c.1 + c.2 then c.1 / (c.1 + c.2) else 0⟩ : BikeFeat)) = Except.ok f := h
  cases hc : sumStations sl with
  | error m =>
    rw [hc] at h2
    cases h2
  | ok c =>
    rw [hc] at h2
    have hf : f = ⟨(sl.length : ℚ), c.1, c.2, c.1 + c.2,
        if 0 < c.1 + c.2 then c.1 / (c.1 + c.2) else 0⟩ := by
      cases h2
      rfl
    subst hf
    refine ⟨rfl, rfl, ?_, ?_, ?_⟩
    · intro hpos
      simp only [if_pos hpos]
    · intro hneg
      simp only [if_neg hneg]
    · intro hn
      rcases sumStations_nonneg sl c hc hn with ⟨h1, h2n⟩
      refine ⟨h1, h2n, ?_⟩
      intro hpos
      simp only [if_pos hpos]
      constructor
      · exact div_nonneg h1 (le_of_lt hpos)
      · rw [div_le_one hpos]
        exact le_add_of_nonneg_right h2n

/-- C3 witness at the spec's own example payload: one station with
free_bikes = 2 and empty_slots = 8 gives total_slots = 10 = 2 + 8 and
free_ratio = 1/5, inside [0, 1]. -/
theorem C3_amended_witness :
    (BikeFeat.mk 1 2 8 10 (1/5)).total_slots
        = (BikeFeat.mk 1 2 8 10 (1/5)).free_bikes + (BikeFeat.mk 1 2 8 10 (1/5)).empty_slots
      ∧ 0 ≤ (BikeFeat.mk 1 2 8 10 (1/5)).free_ratio
      ∧ (BikeFeat.mk 1 2 8 10 (1/5)).free_ratio ≤ 1 := by
  have hs : payloadStations (JVal.obj [("network", JVal.obj [("stations", JVal.arr
      [JVal.obj [("free_bikes", JVal.num 2), ("empty_slots", JVal.num 8)]])])])
      = Except.ok [JVal.obj [("free_bikes", JVal.num 2), ("empty_slots", JVal.num 8)]] := by
    simp [payloadStations, pyGet, jlookup, pyTruthy, asStationList]
  have h : bikes_features (JVal.obj [("network", JVal.obj [("stations", JVal.arr
      [JVal.obj [("free_bikes", JVal.num 2), ("empty_slots", JVal.num 8)]])])])
      = Except.ok (BikeFeat.mk 1 2 8 10 (1/5)) := by
    simp [bikes_features, payloadStations, pyGet, jlookup, pyTruthy,
      asStationList, sumStations, stationCounts, countContrib, pyFloat]
    norm_num
  have hmain := C3_amended _ _ _ hs h
  have hb := hmain.2.2.2.2 (by simp [stationNonneg, fieldNonneg, jlookup])
  have hb2 := hb.2.2 (by norm_num)
  exact ⟨hmain.1, hb2.1, hb2.2⟩

/-- C4, amended: extraction never raises on a structured mapping whose
optional fields are missing, null or numbers — except that bike extraction
does raise when the network field is present and null (the `or`-guard that
protects stations and current is absent for network); and both extractors
raise when the payload is not a structured mapping at all. -/
theorem C4_amended (p : JVal) :
    (bikesPayloadOk p = true → (bikes_features p).isOk = true)
      ∧ (weatherPayloadOk p = true → (weather_features p).isOk = true)
      ∧ (isObjJ p = false →
          (bikes_features p).isOk = false ∧ (weather_features p).isOk = false) :=
  ⟨bikes_features_total p, weather_features_total p, features_err_of_not_obj p⟩

/-- C4, counterexample: the payload `{"network": null}` is a structured
mapping whose only optional field is null, yet bike extraction raises
(AttributeError on `None.get`), contradicting both halves of the claim. -/
theorem C4_counterexample :
    isObjJ (JVal.obj [("network", JVal.null)]) = true
      ∧ jlookup "network" [("network", JVal.null)] = some JVal.null
      ∧ (bikes_features (JVal.obj [("network", JVal.null)])).isOk = false := by
  refine ⟨rfl, ?_, ?_⟩
  · simp [jlookup]
  · simp [bikes_features, payloadStations, pyGet, jlookup, Except.isOk, Except.toBool]

/-- C4 witness: a bike payload with a station missing both counts, a weather
payload with a null current field, and a non-mapping payload. -/
theorem C4_amended_witness :
    (bikes_features (JVal.obj [("network", JVal.obj [("stations",
        JVal.arr [JVal.obj []])])])).isOk = true
      ∧ (weather_features (JVal.obj [("current", JVal.null)])).isOk = true
      ∧ (bikes_features (JVal.num 3)).isOk = false
      ∧ (weather_features (JVal.num 3)).isOk = false :=
  ⟨(C4_amended _).1 (by decide),
   (C4_amended _).2.1 (by decide),
   ((C4_amended (JVal.num 3)).2.2 rfl).1,
   ((C4_amended (JVal.num 3)).2.2 rfl).2⟩

/-- C5: with a model loaded, a predict request omitting required schema
features is rejected with status 400 and the error names exactly the missing
features; with no model loaded the rejection is the distinct 503; and a
request supplying every required feature never raises. -/
theorem C5_predict_errors (st : InfState) (feats : List (String × ℚ)) :
    (st.MODEL = none →
        predictEndpoint st feats = Except.error PredictError.modelNotLoaded
          ∧ statusCode PredictError.modelNotLoaded = 503)
      ∧ (∀ m, st.MODEL = some m →
          ((∃ f ∈ st.FEATURES, dictGet feats f = none) →
              ∃ ms, predictEndpoint st feats = Except.error (PredictError.missingFeatures ms)
                ∧ statusCode (PredictError.missingFeatures ms) = 400
                ∧ ∀ f, f ∈ ms ↔ (f ∈ st.FEATURES ∧ dictGet feats f = none))
            ∧ ((∀ f ∈ st.FEATURES, (dictGet feats f).isSome = true) →
                (predictEndpoint st feats).isOk = true)) := by
  constructor
  · intro hm
    exact ⟨by simp [predictEndpoint, prepareRow, hm], rfl⟩
  · intro m hm
    constructor
    · rintro ⟨f0, hf0, hnone⟩
      have hne : st.FEATURES.filter (fun f => (dictGet feats f).isNone) ≠ [] := by
        intro hnil
        rw [List.filter_eq_nil_iff] at hnil
        exact hnil f0 hf0 (by simp [hnone])
      have hprep : prepareRow st feats = Except.error (PredictError.missingFeatures
          (st.FEATURES.filter (fun f => (dictGet feats f).isNone))) := by
        simp only [prepareRow, hm]
        rw [if_neg hne]
      refine ⟨st.FEATURES.filter (fun f => (dictGet feats f).isNone), ?_, rfl, ?_⟩
      · rw [predictEndpoint, hprep]
      · intro f
        constructor
        · intro hmem
          rcases List.mem_filter.mp hmem with ⟨hin, hp⟩
          exact ⟨hin, Option.isNone_iff_eq_none.mp hp⟩
        · rintro ⟨hin, hnone2⟩
          exact List.mem_filter.mpr ⟨hin, by simp [hnone2]⟩
    · intro hall
      have hnil : st.FEATURES.filter (fun f => (dictGet feats f).isNone) = [] := by
        rw [List.filter_eq_nil_iff]
        intro a ha hcontra
        have h2 := hall a ha
        rw [Option.isNone_iff_eq_none.mp hcontra] at h2
        simp at h2
      have hprep : prepareRow st feats = Except.ok
          (st.FEATURES.map (fun f => (f, (dictGet feats f).getD 0))) := by
        simp only [prepareRow, hm]
        rw [if_pos hnil]
      rw [predictEndpoint, hprep, hm]
      rfl

/-- C5 witness: with no model the request gets 503; with a loaded model over
the schema [a, b], supplying only a gets 400 naming exactly b, and
supplying both features succeeds. -/
theorem C5_predict_errors_witness :
    (predictEndpoint ⟨none, "none", ["a", "b"]⟩ [("a", 1)]
        = Except.error PredictError.modelNotLoaded
      ∧ statusCode PredictError.modelNotLoaded = 503)
      ∧ (∃ ms, predictEndpoint ⟨some (fun _ => 3/4), "v1", ["a", "b"]⟩ [("a", 1)]
            = Except.error (PredictError.missingFeatures ms)
          ∧ statusCode (PredictError.missingFeatures ms) = 400
          ∧ ∀ f, f ∈ ms ↔ (f ∈ ["a", "b"] ∧ dictGet [("a", 1)] f = none))
      ∧ (predictEndpoint ⟨some (fun _ => 3/4), "v1", ["a", "b"]⟩
          [("a", (1:ℚ)), ("b", 2)]).isOk = true :=
  ⟨(C5_predict_errors ⟨none, "none", ["a", "b"]⟩ [("a", 1)]).1 rfl,
   ((C5_predict_errors ⟨some (fun _ => 3/4), "v1", ["a", "b"]⟩ [("a", 1)]).2 _ rfl).1
     ⟨"b", by decide, by decide⟩,
   ((C5_predict_errors ⟨some (fun _ => 3/4), "v1", ["a", "b"]⟩
       [("a", (1:ℚ)), ("b", 2)]).2 _ rfl).2 (by decide)⟩

/-- C10: with a model loaded, the prediction depends only on the features
named in the loaded schema — two requests agreeing on every schema feature
get identical (y, proba) results whatever extra keys they carry — and the
single-row table passed to the pipeline carries exactly the schema features
in metadata order. -/
theorem C10_schema_only (st : InfState) (m : List ℚ → ℚ) (f₁ f₂ : List (String × ℚ))
    (hm : st.MODEL = some m)
    (hagree : ∀ f ∈ st.FEATURES, dictGet f₁ f = dictGet f₂ f) :
    predictEndpoint st f₁ = predictEndpoint st f₂
      ∧ (∀ row, prepareRow st f₁ = Except.ok row → row.map Prod.fst = st.FEATURES) := by
  have hfilter : st.FEATURES.filter (fun f => (dictGet f₁ f).isNone)
      = st.FEATURES.filter (fun f => (dictGet f₂ f).isNone) :=
    List.filter_congr (fun f hf => by rw [hagree f hf])
  have hmap : st.FEATURES.map (fun f => (f, (dictGet f₁ f).getD 0))
      = st.FEATURES.map (fun f => (f, (dictGet f₂ f).getD 0)) :=
    List.map_congr_left (fun f hf => by rw [hagree f hf])
  have hprep : prepareRow st f₁ = prepareRow st f₂ := by
    simp only [prepareRow, hm]
    rw [hfilter, hmap]
  constructor
  · rw [predictEndpoint, predictEndpoint, hprep]
  · intro row hrow
    simp only [prepareRow, hm] at hrow
    by_cases hnil : st.FEATURES.filter (fun f => (dictGet f₁ f).isNone) = []
    · rw [if_pos hnil] at hrow
      cases hrow
      rw [List.map_map]
      exact (List.map_congr_left (fun a ha => rfl)).trans (List.map_id _)
    · rw [if_neg hnil] at hrow
      cases hrow

/-- C10 witness: over the schema [a], two requests agreeing on a but
differing in their extra keys produce the same result, and the prepared row
holds exactly the schema key. -/
theorem C10_schema_only_witness :
    predictEndpoint ⟨some (fun v => v.headD 0), "v1", ["a"]⟩ [("a", (1:ℚ)), ("x", 9)]
        = predictEndpoint ⟨some (fun v => v.headD 0), "v1", ["a"]⟩ [("z", (3:ℚ)), ("a", 1)]
      ∧ ([(("a" : String), (1:ℚ))].map Prod.fst = ["a"]) :=
  ⟨(C10_schema_only ⟨some (fun v => v.headD 0), "v1", ["a"]⟩ _
      [("a", (1:ℚ)), ("x", 9)] [("z", (3:ℚ)), ("a", 1)] rfl (by decide)).1,
   (C10_schema_only ⟨some (fun v => v.headD 0), "v1", ["a"]⟩ _
      [("a", (1:ℚ)), ("x", 9)] [("z", (3:ℚ)), ("a", 1)] rfl (by decide)).2
     [("a", (1:ℚ))] rfl⟩

/-- C8: the synthetic dataset is a pure function of the generator primitives,
the sample count and the seed — two invocations with equal seed and equal
count give identical frame, labels and metadata — and its labels follow the
fixed rule 1 iff free_ratio < 0.30, recorded as synthetic_fixed with
threshold 0.30. -/
theorem C8_synthetic_determinism {S : Type} (normal : ℚ → ℚ → S → ℚ × S)
    (integers : ℕ → ℕ → S → ℚ × S) (initRng : ℕ → S) (n₁ s₁ n₂ s₂ : ℕ)
    (hn : n₁ = n₂) (hs : s₁ = s₂) :
    make_synthetic_df normal integers initRng n₁ s₁
        = make_synthetic_df normal integers initRng n₂ s₂
      ∧ (make_synthetic_df normal integers initRng n₁ s₁).2.1
          = (make_synthetic_df normal integers initRng n₁ s₁).1.free_ratio.map
              (fun r => if r < 3/10 then 1 else 0)
      ∧ (make_synthetic_df normal integers initRng n₁ s₁).2.2.rule_name = "synthetic_fixed"
      ∧ (make_synthetic_df normal integers initRng n₁ s₁).2.2.threshold = 3/10 := by
  subst hn
  subst hs
  exact ⟨rfl, rfl, rfl, rfl⟩

/-- A stand-in state-threading normal draw used only to witness the synthetic
generator at a concrete instantiation. -/
def rngNormalTest : ℚ → ℚ → ℕ → ℚ × ℕ := fun m _ s => (m + s, s + 1)

/-- A stand-in integer draw for the same purpose. -/
def rngIntTest : ℕ → ℕ → ℕ → ℚ × ℕ := fun lo _ s => ((lo : ℚ) + s, s + 1)

/-- A stand-in seed initialiser for the same purpose. -/
def rngInitTest : ℕ → ℕ := fun s => s

/-- C8 witness at a concrete generator, n = 4 and seed = 7. -/
theorem C8_synthetic_determinism_witness :
    make_synthetic_df rngNormalTest rngIntTest rngInitTest 4 7
        = make_synthetic_df rngNormalTest rngIntTest rngInitTest 4 7
      ∧ (make_synthetic_df rngNormalTest rngIntTest rngInitTest 4 7).2.1
          = (make_synthetic_df rngNormalTest rngIntTest rngInitTest 4 7).1.free_ratio.map
              (fun r => if r < 3/10 then 1 else 0)
      ∧ (make_synthetic_df rngNormalTest rngIntTest rngInitTest 4 7).2.2.rule_name
          = "synthetic_fixed"
      ∧ (make_synthetic_df rngNormalTest rngIntTest rngInitTest 4 7).2.2.threshold = 3/10 :=
  C8_synthetic_determinism rngNormalTest rngIntTest rngInitTest 4 7 4 7 rfl rfl

/-- C9, counterexample: the schedule that lets the whole predict run between
the reload's write of FEATURES and its writes of MODEL_VERSION and MODEL is a
legal interleaving of the two source-ordered sequences, and under it the
predict observes the old MODEL (generation 1) together with the new FEATURES
(generation 2) — a torn, version-inconsistent triple, refuting the claimed
guarantee. -/
theorem C9_counterexample :
    isInterleaving reloadEvents predictEvents tornSchedule = true
      ∧ obsConsistent (runSched 2 tornSchedule gOld ⟨[], []⟩).2 = false := by
  decide

/-- C9, amended: the code provides no synchronisation around the three
global assignments, so consistency holds only when predict does not
interleave with reload: a predict running entirely after, or entirely
before, the reload observes a version-consistent triple (interleaved
predicts can observe a mix, per the counterexample). -/
theorem C9_amended (v : ℕ) (g : Globals) (h : g.MODEL = g.FEATURES) :
    obsConsistent (runSched v (reloadEvents ++ predictEvents) g ⟨[], []⟩).2 = true
      ∧ obsConsistent (runSched v (predictEvents ++ reloadEvents) g ⟨[], []⟩).2 = true := by
  constructor
  · simp [reloadEvents, predictEvents, runSched, stepEv, obsConsistent]
  · simp [reloadEvents, predictEvents, runSched, stepEv, obsConsistent, h]

/-- C9 witness: the sequential schedules from the fully-installed old state. -/
theorem C9_amended_witness :
    obsConsistent (runSched 2 (reloadEvents ++ predictEvents) gOld ⟨[], []⟩).2 = true
      ∧ obsConsistent (runSched 2 (predictEvents ++ reloadEvents) gOld ⟨[], []⟩).2 = true :=
  C9_amended 2 gOld rfl
